import Mathlib

/-!
Shallow embedding of src/zotero_app.py (zotero_daily_digest), the pure
activity-classification pipeline: window calculation, the in-window filter,
the meaningfulness heuristic for notes and annotations in group libraries,
parent (bibliographic ancestor) resolution, and the digest assembly; plus an
effect-trace model of the top-level script for the weekend-skip behaviour.

Modelling conventions:
- timestamps are integers (epoch seconds); a dateAdded field that is missing
  or that iso_to_dt would fail to parse is modelled as none;
- the network (get_item) is a function fetch : String -> Option Item where
  none means the request raises;
- Python truthiness of key strings is preserved: an empty parent key behaves
  like an absent one;
- weekdays follow Python: Monday = 0, ..., Sunday = 6.
-/

namespace ZoteroDigest

/-- A fetched Zotero item record, restricted to the fields the pipeline in
src/zotero_app.py reads: data.itemType, data.dateAdded, data.parentItem, the
stable key, and meta.createdByUser. createdById is the string the code builds
at lines 236-239 (empty when meta.createdByUser is absent or has no id). -/
structure Item where
  key : String
  itemType : String
  dateAdded : Option Int
  parentItem : Option String
  createdById : String
deriving DecidableEq, Repr

/-- The in_window filter (src/zotero_app.py lines 220-224): true iff dateAdded
is present, parses, and lies in the closed interval of the window; any failure
inside the try block yields false. -/
def in_window (start_dt end_dt : Int) (it : Item) : Bool :=
  match it.dateAdded with
  | some t => decide (start_dt ≤ t) && decide (t ≤ end_dt)
  | none => false

/-- The window calculator now_window (src/zotero_app.py lines 128-141):
end = now, and on the default one-day window a Monday run widens the
effective day count to 3; start = end - effectiveDays. -/
def now_window (nowSecs : Int) (nowWeekday : Nat) (days : Int) : Int × Int :=
  let effDays : Int := if days = 1 then (if nowWeekday = 0 then 3 else days) else days
  (nowSecs - effDays * 86400, nowSecs)

/-- The effective day count applied by now_window: 3 when days = 1 and the
weekday is Monday (0), otherwise the requested days. -/
def effective_days (nowWeekday : Nat) (days : Int) : Int :=
  if days = 1 then (if nowWeekday = 0 then 3 else days) else days

/-- The paper used for the timing comparison inside is_meaningful_item
(src/zotero_app.py lines 249-258): if the fetched parent is an attachment,
follow its parentItem when present (a raising fetch propagates as none),
otherwise the parent itself is the paper. -/
def timing_paper (fetch : String → Option Item) (parent : Item) : Option Item :=
  if parent.itemType = "attachment" then
    match parent.parentItem with
    | some g => if g = "" then some parent else fetch g
    | none => some parent
  else some parent

/-- The meaningfulness heuristic is_meaningful_item (src/zotero_app.py lines
228-284). Personal libraries: always true. Group libraries: false when no
creator is recorded; otherwise, when a parent key is present, any raise inside
the try block (fetch failure or unreadable dateAdded) is caught and yields
true, and on the successful path the item is meaningful iff the time gap to
the paper, in minutes, strictly exceeds the threshold; with no (or an empty)
parent key the code falls through to the final return True. The division of
the second gap by 60 is exact rational division, written Rat.divInt so that
it evaluates by kernel reduction. -/
def is_meaningful_item (library_type : String) (threshold : Int)
    (fetch : String → Option Item) (it : Item) : Bool :=
  if library_type ≠ "groups" then true
  else if it.createdById = "" then false
  else
    match it.parentItem with
    | none => true
    | some pk =>
      if pk = "" then true
      else
        match fetch pk with
        | none => true
        | some parent =>
          match timing_paper fetch parent with
          | none => true
          | some paper =>
            match it.dateAdded, paper.dateAdded with
            | some tAnn, some tPap =>
              decide (Rat.divInt (tAnn - tPap) 60 > (threshold : ℚ))
            | _, _ => true

/-- The raise points of the try block in is_meaningful_item, as a predicate:
true exactly when, a nonempty parent key being present, the parent fetch, the
grandparent fetch, or reading either dateAdded would raise. -/
def timing_check_raises (fetch : String → Option Item) (it : Item) : Bool :=
  match it.parentItem with
  | none => false
  | some pk =>
    if pk = "" then false
    else
      match fetch pk with
      | none => true
      | some parent =>
        match timing_paper fetch parent with
        | none => true
        | some paper =>
          match it.dateAdded, paper.dateAdded with
          | some _, some _ => false
          | _, _ => true

/-- paper_for_child (src/zotero_app.py lines 305-314): ok none when there is
no parent key or the attachment parent has no grandparent; error when a fetch
raises; ok (some p) with the resolved top-level parent otherwise. -/
def paper_for_child (fetch : String → Option Item) (child : Item) :
    Except Unit (Option Item) :=
  match child.parentItem with
  | none => Except.ok none
  | some pk =>
    if pk = "" then Except.ok none
    else
      match fetch pk with
      | none => Except.error ()
      | some parent =>
        if parent.itemType = "attachment" then
          match parent.parentItem with
          | some g =>
            if g = "" then Except.ok none
            else
              match fetch g with
              | none => Except.error ()
              | some gp => Except.ok (some gp)
          | none => Except.ok none
        else Except.ok (some parent)

/-- Insertion into the parents dict (src/zotero_app.py line 330), with Python
dict semantics: an existing entry with the same key is overwritten in place,
a new key is appended at the end. -/
def dict_insert (acc : List Item) (p : Item) : List Item :=
  if acc.any (fun q => q.key == p.key) then
    acc.map (fun q => if q.key == p.key then p else q)
  else acc ++ [p]

/-- One iteration of the parents loop (src/zotero_app.py lines 321-333): a
fetch error is swallowed and the child skipped; a resolved paper is recorded
only when its itemType is bibliographic. -/
def parents_step (biblioTypes : List String) (fetch : String → Option Item)
    (acc : List Item) (ch : Item) : List Item :=
  match paper_for_child fetch ch with
  | Except.error _ => acc
  | Except.ok none => acc
  | Except.ok (some p) =>
    if p.itemType ∈ biblioTypes then dict_insert acc p else acc

/-- The note partition (src/zotero_app.py line 215). -/
def notes_of (changed : List Item) : List Item :=
  changed.filter (fun it => it.itemType == "note")

/-- The annotation partition (src/zotero_app.py line 216). -/
def annots_of (changed : List Item) : List Item :=
  changed.filter (fun it => it.itemType == "annotation")

/-- The bibliographic partition (src/zotero_app.py line 217). -/
def biblio_of (biblioTypes : List String) (changed : List Item) : List Item :=
  changed.filter (fun it => decide (it.itemType ∈ biblioTypes))

/-- new_papers (src/zotero_app.py line 286): bibliographic items inside the
window. -/
def new_papers_of (biblioTypes : List String) (start_dt end_dt : Int)
    (changed : List Item) : List Item :=
  (biblio_of biblioTypes changed).filter (in_window start_dt end_dt)

/-- new_notes (src/zotero_app.py line 288): notes inside the window that pass
the meaningfulness check. -/
def new_notes_of (library_type : String) (threshold : Int)
    (fetch : String → Option Item) (start_dt end_dt : Int)
    (changed : List Item) : List Item :=
  (notes_of changed).filter
    (fun it => in_window start_dt end_dt it &&
      is_meaningful_item library_type threshold fetch it)

/-- new_annots (src/zotero_app.py line 289): annotations inside the window
that pass the meaningfulness check. -/
def new_annots_of (library_type : String) (threshold : Int)
    (fetch : String → Option Item) (start_dt end_dt : Int)
    (changed : List Item) : List Item :=
  (annots_of changed).filter
    (fun it => in_window start_dt end_dt it &&
      is_meaningful_item library_type threshold fetch it)

/-- all_meaningful_notes ++ all_meaningful_annotations (src/zotero_app.py
lines 318-321): the children feeding the parents loop, with no window
restriction. -/
def meaningful_children (library_type : String) (threshold : Int)
    (fetch : String → Option Item) (changed : List Item) : List Item :=
  (notes_of changed).filter (is_meaningful_item library_type threshold fetch) ++
    (annots_of changed).filter (is_meaningful_item library_type threshold fetch)

/-- read_papers (src/zotero_app.py lines 316-335): the values of the parents
dict after the loop over all meaningful children. -/
def read_papers_of (library_type : String) (threshold : Int)
    (biblioTypes : List String) (fetch : String → Option Item)
    (changed : List Item) : List Item :=
  (meaningful_children library_type threshold fetch changed).foldl
    (parents_step biblioTypes fetch) []

/-- The summary returned by digest (src/zotero_app.py line 337). -/
structure Summary where
  new_papers : List Item
  notes : List Item
  read_papers : List Item
deriving DecidableEq, Repr

/-- digest (src/zotero_app.py lines 182-337) as a function of the fetched
page changed and the item-lookup function fetch: computes the window from
now_window and assembles the summary. -/
def digest (library_type : String) (threshold : Int) (biblioTypes : List String)
    (fetch : String → Option Item) (nowSecs : Int) (nowWeekday : Nat)
    (days : Int) (changed : List Item) : Summary :=
  let w := now_window nowSecs nowWeekday days
  { new_papers := new_papers_of biblioTypes w.1 w.2 changed
  , notes := new_notes_of library_type threshold fetch w.1 w.2 changed
  , read_papers := read_papers_of library_type threshold biblioTypes fetch changed }

/-- actual_days as a presenter computes it from its own now_window call
(src/zotero_app.py lines 340-341 and 372-373): the day component of
end - start, i.e. floor division by 86400. Each call site of now_window in
the program samples the clock itself, so this takes the clock sample of that
very call site, not a value shared with the fetch stage. -/
def presenter_actual_days (nowSecs : Int) (nowWeekday : Nat) (days : Int) : Int :=
  ((now_window nowSecs nowWeekday days).2 -
    (now_window nowSecs nowWeekday days).1) / 86400

/-- Observable effects of the top-level script, for the weekend-skip model. -/
inductive Effect where
  | netGet : String → Effect
  | netPost : String → Effect
  | printOut : String → Effect
deriving DecidableEq, Repr

/-- Whether an effect is a network call. -/
def is_network : Effect → Bool
  | Effect.netGet _ => true
  | Effect.netPost _ => true
  | Effect.printOut _ => false

/-- The identity endpoint queried unconditionally at import time. -/
def keys_current_url : String := "https://api.zotero.org/keys/current"

/-- The banner printed at src/zotero_app.py line 115. -/
def using_library_line : String := "Using Zotero library"

/-- The weekend notice printed at src/zotero_app.py line 433. -/
def weekend_notice_line : String :=
  "Weekend - no digest generated. Run again on Monday for weekend summary."

/-- The override hint printed at src/zotero_app.py line 434. -/
def override_hint_line : String :=
  "To override: SKIP_WEEKENDS=0 python3 zotero_app_v3.py"

/-- Effects of the module-level initialization (src/zotero_app.py lines
100-117), which runs before the weekend check in the main block: line 101
fetches keys/current, then resolve_library (called at line 109) starts with
its own keys/current fetch (line 42) and continues with configuration
dependent requests (resolveRest), and line 115 prints the library banner. -/
def module_init_trace (resolveRest : List Effect) : List Effect :=
  Effect.netGet keys_current_url :: Effect.netGet keys_current_url ::
    resolveRest ++ [Effect.printOut using_library_line]

/-- The whole script run (src/zotero_app.py lines 426-443) as an effect
trace: module initialization always happens first; then, when weekends are
skipped and the weekday is Saturday (5) or Sunday (6), only the two notice
lines are printed, otherwise the digest stage (abstracted as digestEffects:
the items fetch, per-child lookups, printing, the webhook post and the state
write) runs. -/
def script_trace (resolveRest digestEffects : List Effect) (weekday : Nat)
    (skipWeekends : Bool) : List Effect :=
  module_init_trace resolveRest ++
    (if skipWeekends ∧ (weekday = 5 ∨ weekday = 6) then
      [Effect.printOut weekend_notice_line, Effect.printOut override_hint_line]
    else digestEffects)

/-- The parents dict values have pairwise distinct item keys. -/
def KeysDistinct (l : List Item) : Prop :=
  l.Pairwise (fun a b => a.key ≠ b.key)

/-- Concrete fixture: a bibliographic paper with key P, created at time 0. -/
def paperW : Item := ⟨"P", "journalArticle", some 0, none, "u9"⟩

/-- Concrete fixture: an item lookup that resolves only the key P. -/
def fetchW : String → Option Item :=
  fun k => if k = "P" then some paperW else none

/-- Concrete fixture: an annotation on P created 90 seconds after it. -/
def annW90 : Item := ⟨"A90", "annotation", some 90, some "P", "u1"⟩

/-- Concrete fixture: an annotation on P created 30 seconds after it. -/
def annW30 : Item := ⟨"A30", "annotation", some 30, some "P", "u1"⟩

/-- Concrete fixture: an annotation on P created long after the window. -/
def annWLate : Item := ⟨"AL", "annotation", some 999999, some "P", "u1"⟩

/-- Concrete fixture: a note with a creator and no parent key. -/
def noteW : Item := ⟨"N1", "note", some 5, none, "u1"⟩

/-- Concrete fixture: an item whose dateAdded is missing or unparsable. -/
def badDateW : Item := ⟨"X1", "journalArticle", none, none, "u1"⟩

/-- Concrete fixture: a paper added two days and a bit before a Monday
midnight taken as time 0, inside a 3-day window ending just after that
midnight but outside a 1-day window ending just before it. -/
def lateReadW : Item := ⟨"L1", "journalArticle", some (-200000), none, "u2"⟩

/-- in_window is true exactly when dateAdded is present and lies in the
closed interval of the window. -/
theorem in_window_iff (start_dt end_dt : Int) (it : Item) :
    in_window start_dt end_dt it = true ↔
      ∃ t, it.dateAdded = some t ∧ start_dt ≤ t ∧ t ≤ end_dt := by
  cases h : it.dateAdded with
  | none => simp [in_window, h]
  | some t => simp [in_window, h]

/-- Claim C3: for requestedDays different from 1 the weekend extension never
triggers, so the effective day count equals requestedDays; for requestedDays
equal to 1 the effective day count is 3 when now falls on Monday (weekday 0,
the first working day) and 1 on every other weekday; and the window always
satisfies start = end - effectiveDays days with end = now. -/
theorem C3_window_effective_days (nowSecs : Int) (wd : Nat) (days : Int) :
    (days ≠ 1 → effective_days wd days = days) ∧
    (days = 1 →
      (wd = 0 → effective_days wd days = 3) ∧
      (wd ≠ 0 → effective_days wd days = 1)) ∧
    now_window nowSecs wd days =
      (nowSecs - effective_days wd days * 86400, nowSecs) := by
  refine ⟨?_, ?_, rfl⟩
  · intro h
    simp [effective_days, h]
  · intro h
    subst h
    constructor
    · intro h0
      simp [effective_days, h0]
    · intro h0
      simp [effective_days, h0]

/-- Witness for C3 at concrete inputs: a 5-day window on Wednesday stays 5
days, a 1-day window on Monday becomes 3 days, on Friday it stays 1 day. -/
theorem C3_window_effective_days_witness :
    effective_days 2 5 = 5 ∧ effective_days 0 1 = 3 ∧ effective_days 4 1 = 1 :=
  ⟨(C3_window_effective_days 0 2 5).1 (by decide),
   ((C3_window_effective_days 0 0 1).2.1 rfl).1 rfl,
   ((C3_window_effective_days 0 4 1).2.1 rfl).2 (by decide)⟩

/-- Claim C9 counterexample: every call site of now_window reads the clock
itself, so the stages sample different instants. With the fetch stage
sampling 10 seconds before a Sunday-to-Monday midnight (time 0) and the
presenter 10 seconds after it, on the default 1-day request, the two windows
differ, the weekend override applies only to the presenter (effective day
count 1 for filtering against 3 displayed), and the concrete paper lateReadW
lies inside the window the presenter reports while digest did not place it
in new_papers: the window reported to the user is not the window applied. -/
theorem C9_counterexample :
    now_window (-10) 6 1 ≠ now_window 10 0 1 ∧
    effective_days 6 1 = 1 ∧
    effective_days 0 1 = 3 ∧
    presenter_actual_days 10 0 1 = 3 ∧
    lateReadW ∉ (digest "groups" 1 ["journalArticle"] fetchW (-10) 6 1
      [lateReadW]).new_papers ∧
    in_window (now_window 10 0 1).1 (now_window 10 0 1).2 lateReadW = true := by
  refine ⟨by decide, rfl, rfl, by decide, by decide, by decide⟩

/-- Claim C9 amended: now_window is a deterministic pure function of (now,
requestedDays, weekday), so the fetch stage and the two presenters compute
the same window exactly when their clock samples coincide (each call site
re-reads the clock, so within a real run the samples, and with them the
windows and even the weekend override, can differ); a presenter always
displays the effective day count of its own window, and digest filters
new_papers with the window of its own sample. -/
theorem C9_window_agreement_amended (lt : String) (thr : Int)
    (bt : List String) (fetch : String → Option Item)
    (nFetch nPrint nSlack : Int) (wdFetch wdPrint wdSlack : Nat) (d : Int)
    (changed : List Item)
    (hn1 : nPrint = nFetch) (hwd1 : wdPrint = wdFetch)
    (hn2 : nSlack = nFetch) (hwd2 : wdSlack = wdFetch) :
    now_window nPrint wdPrint d = now_window nFetch wdFetch d ∧
    now_window nSlack wdSlack d = now_window nFetch wdFetch d ∧
    presenter_actual_days nPrint wdPrint d = effective_days wdPrint d ∧
    (digest lt thr bt fetch nFetch wdFetch d changed).new_papers =
      new_papers_of bt (now_window nFetch wdFetch d).1
        (now_window nFetch wdFetch d).2 changed := by
  refine ⟨by rw [hn1, hwd1], by rw [hn2, hwd2], ?_, rfl⟩
  show (nPrint - (nPrint - effective_days wdPrint d * 86400)) / 86400 =
    effective_days wdPrint d
  omega

/-- Witness for the amended C9: with coinciding clock samples on a Monday the
presenter windows equal the fetch window, the displayed day count is the
effective 3, and digest filtered with exactly that window. -/
theorem C9_window_agreement_amended_witness :
    now_window 100 0 1 = now_window 100 0 1 ∧
    now_window 100 0 1 = now_window 100 0 1 ∧
    presenter_actual_days 100 0 1 = effective_days 0 1 ∧
    (digest "groups" 1 ["journalArticle"] fetchW 100 0 1 [annW90]).new_papers =
      new_papers_of ["journalArticle"] (now_window 100 0 1).1
        (now_window 100 0 1).2 [annW90] :=
  C9_window_agreement_amended "groups" 1 ["journalArticle"] fetchW 100 100 100
    0 0 0 1 [annW90] rfl rfl rfl rfl

/-- Claim C7: in a group library, a note with a recorded creator and no
parentItem key falls through the timing block to the final default and is
judged meaningful. -/
theorem C7_no_parent_is_meaningful (thr : Int) (fetch : String → Option Item)
    (it : Item) (_hnote : it.itemType = "note")
    (hcr : it.createdById ≠ "") (hp : it.parentItem = none) :
    is_meaningful_item "groups" thr fetch it = true := by
  simp [is_meaningful_item, hcr, hp]

/-- Witness for C7: a concrete parentless note with a creator is meaningful
in a group library. -/
theorem C7_no_parent_is_meaningful_witness :
    is_meaningful_item "groups" 1 (fun _ => none) noteW = true :=
  C7_no_parent_is_meaningful 1 (fun _ => none) noteW rfl (by decide) rfl

/-- Claim C2: in a group library the meaningfulness check is asymmetric: a
note or annotation without a recorded creator is never meaningful (fail
closed, for any lookup function), while one with a creator whose ancestor
lookup or timing computation raises is always meaningful (fail open). -/
theorem C2_fail_closed_fail_open (thr : Int) (fetch : String → Option Item)
    (it : Item) (_hty : it.itemType = "note" ∨ it.itemType = "annotation") :
    (it.createdById = "" → is_meaningful_item "groups" thr fetch it = false) ∧
    (it.createdById ≠ "" → timing_check_raises fetch it = true →
      is_meaningful_item "groups" thr fetch it = true) := by
  constructor
  · intro h
    simp [is_meaningful_item, h]
  · intro hcr hraise
    cases hp : it.parentItem with
    | none => simp [timing_check_raises, hp] at hraise
    | some pk =>
      by_cases hpk : pk = ""
      · simp [timing_check_raises, hp, hpk] at hraise
      · cases hf : fetch pk with
        | none => simp [is_meaningful_item, hcr, hp, hpk, hf]
        | some parent =>
          cases htp : timing_paper fetch parent with
          | none => simp [is_meaningful_item, hcr, hp, hpk, hf, htp]
          | some paper =>
            cases hA : it.dateAdded with
            | none => simp [is_meaningful_item, hcr, hp, hpk, hf, htp, hA]
            | some tA =>
              cases hP : paper.dateAdded with
              | none => simp [is_meaningful_item, hcr, hp, hpk, hf, htp, hA, hP]
              | some tP =>
                simp [timing_check_raises, hp, hpk, hf, htp, hA, hP] at hraise

/-- Witness for C2: with a lookup that always raises, a creatorless note is
excluded while a note with a creator and a parent key is included. -/
theorem C2_fail_closed_fail_open_witness :
    is_meaningful_item "groups" 1 (fun _ => none)
      ⟨"N0", "note", some 5, some "P", ""⟩ = false ∧
    is_meaningful_item "groups" 1 (fun _ => none)
      ⟨"N2", "note", some 5, some "P", "u1"⟩ = true :=
  ⟨(C2_fail_closed_fail_open 1 (fun _ => none)
      ⟨"N0", "note", some 5, some "P", ""⟩ (Or.inl rfl)).1 rfl,
   (C2_fail_closed_fail_open 1 (fun _ => none)
      ⟨"N2", "note", some 5, some "P", "u1"⟩ (Or.inl rfl)).2 (by decide) (by decide)⟩

/-- Claim C1: in a group library, a note or annotation with a recorded
creator whose bibliographic ancestor resolves without error is meaningful iff
its dateAdded minus the dateAdded of the ancestor, expressed in minutes, strictly
exceeds the configured threshold. -/
theorem C1_meaningful_iff_time_gap (thr : Int) (bt : List String)
    (fetch : String → Option Item) (it parent paper : Item) (pk : String)
    (tAnn tPap : Int)
    (_hty : it.itemType = "note" ∨ it.itemType = "annotation")
    (hcr : it.createdById ≠ "")
    (hpk : it.parentItem = some pk) (hpk0 : pk ≠ "")
    (hfetch : fetch pk = some parent)
    (hpaper : timing_paper fetch parent = some paper)
    (_hbib : paper.itemType ∈ bt)
    (hA : it.dateAdded = some tAnn) (hP : paper.dateAdded = some tPap) :
    is_meaningful_item "groups" thr fetch it = true ↔
      ((tAnn : ℚ) - (tPap : ℚ)) / 60 > (thr : ℚ) := by
  have hdiv : Rat.divInt (tAnn - tPap) 60 = ((tAnn : ℚ) - (tPap : ℚ)) / 60 := by
    rw [Rat.divInt_eq_div]
    push_cast
    ring
  simp [is_meaningful_item, hcr, hpk, hpk0, hfetch, hpaper, hA, hP, hdiv]

/-- Witness for C1 at the default threshold of 1 minute: the annotation
created 90 seconds after its paper is included, the one created 30 seconds
after is excluded. -/
theorem C1_meaningful_iff_time_gap_witness :
    is_meaningful_item "groups" 1 fetchW annW90 = true ∧
    is_meaningful_item "groups" 1 fetchW annW30 = false := by
  constructor
  · exact (C1_meaningful_iff_time_gap 1 ["journalArticle"] fetchW annW90 paperW
      paperW "P" 90 0 (Or.inr rfl) (by decide) rfl (by decide) (by decide)
      (by decide) (by decide) rfl rfl).mpr (by norm_num)
  · decide

/-- Claim C10: an item whose dateAdded is missing or unparsable always fails
the window test (false rather than a raise), so it never lands in
new_papers, new_notes, or new_annots, whatever the window bounds are. -/
theorem C10_bad_date_never_included (lt : String) (thr : Int)
    (bt : List String) (fetch : String → Option Item) (s e : Int) (n : Int)
    (wd : Nat) (d : Int) (changed : List Item) (it : Item)
    (h : it.dateAdded = none) :
    in_window s e it = false ∧
    it ∉ (digest lt thr bt fetch n wd d changed).new_papers ∧
    it ∉ (digest lt thr bt fetch n wd d changed).notes ∧
    it ∉ new_annots_of lt thr fetch s e changed := by
  have hw : ∀ a b : Int, in_window a b it = false := by
    intro a b
    simp [in_window, h]
  refine ⟨hw s e, ?_, ?_, ?_⟩
  · simp [digest, new_papers_of, biblio_of, List.mem_filter, hw]
  · simp [digest, new_notes_of, notes_of, List.mem_filter, hw]
  · simp [new_annots_of, annots_of, List.mem_filter, hw]

/-- Witness for C10: the concrete item with no readable dateAdded is outside
every window and absent from all three filtered lists. -/
theorem C10_bad_date_never_included_witness :
    in_window 0 100 badDateW = false ∧
    badDateW ∉ (digest "groups" 1 ["journalArticle"] fetchW 100 1 1
      [badDateW]).new_papers ∧
    badDateW ∉ (digest "groups" 1 ["journalArticle"] fetchW 100 1 1
      [badDateW]).notes ∧
    badDateW ∉ new_annots_of "groups" 1 fetchW 0 100 [badDateW] :=
  C10_bad_date_never_included "groups" 1 ["journalArticle"] fetchW 0 100 100
    1 1 [badDateW] badDateW rfl

/-- Claim C4: membership in new_papers is exact: an item is in new_papers iff
it was fetched, its itemType is bibliographic, and its dateAdded lies in the
closed window, inclusively on both ends. -/
theorem C4_new_papers_exact (lt : String) (thr : Int) (bt : List String)
    (fetch : String → Option Item) (n : Int) (wd : Nat) (d : Int)
    (changed : List Item) (it : Item) :
    it ∈ (digest lt thr bt fetch n wd d changed).new_papers ↔
      (it ∈ changed ∧ it.itemType ∈ bt ∧
        ∃ t, it.dateAdded = some t ∧
          (now_window n wd d).1 ≤ t ∧ t ≤ (now_window n wd d).2) := by
  simp [digest, new_papers_of, biblio_of, List.mem_filter, in_window_iff,
    and_assoc]
  tauto

/-- Claim C8 counterexample: on a Saturday run with weekend skipping on, the
script trace still contains network calls (the module-level identity and
library resolution requests run before the weekend check), so the run does
not exit without making any network call. -/
theorem C8_counterexample :
    ∃ e ∈ script_trace [] [] 5 true, is_network e = true := by
  refine ⟨Effect.netGet keys_current_url, ?_, rfl⟩
  simp [script_trace, module_init_trace]

/-- Claim C8 amended: when the run starts on Saturday or Sunday and weekend
skipping is on, the script prints the weekend notice and override hint and
performs none of the digest-stage effects (no items fetch, lookups, webhook
post or state write); every network call in the trace was already made by
the module-level initialization that precedes the check. -/
theorem C8_weekend_skip_amended (resolveRest digestEffects : List Effect)
    (wd : Nat) (hw : wd = 5 ∨ wd = 6) :
    script_trace resolveRest digestEffects wd true =
      module_init_trace resolveRest ++
        [Effect.printOut weekend_notice_line,
         Effect.printOut override_hint_line] ∧
    ∀ e ∈ script_trace resolveRest digestEffects wd true,
      is_network e = true → e ∈ module_init_trace resolveRest := by
  have heq : script_trace resolveRest digestEffects wd true =
      module_init_trace resolveRest ++
        [Effect.printOut weekend_notice_line,
         Effect.printOut override_hint_line] := by
    unfold script_trace
    rw [if_pos ⟨rfl, hw⟩]
  refine ⟨heq, ?_⟩
  intro e he hn
  rw [heq] at he
  rcases List.mem_append.mp he with h | h
  · exact h
  · rcases List.mem_cons.mp h with rfl | h2
    · cases hn
    · rcases List.mem_cons.mp h2 with rfl | h3
      · cases hn
      · cases h3

/-- Witness for the amended C8: a Sunday run with a pending webhook post in
the digest stage produces exactly the initialization trace plus the two
notice lines. -/
theorem C8_weekend_skip_amended_witness :
    script_trace [] [Effect.netPost "hook"] 6 true =
      module_init_trace [] ++
        [Effect.printOut weekend_notice_line,
         Effect.printOut override_hint_line] :=
  (C8_weekend_skip_amended [] [Effect.netPost "hook"] 6 (Or.inr rfl)).1

/-- Overwriting an entry of the parents dict does not change its key. -/
theorem dict_insert_key_eq (p q : Item) :
    (if (q.key == p.key) = true then p else q).key = q.key := by
  by_cases h : q.key = p.key
  · simp [h]
  · simp [h]

/-- dict_insert preserves distinctness of keys. -/
theorem keysDistinct_dict_insert (acc : List Item) (p : Item)
    (h : KeysDistinct acc) : KeysDistinct (dict_insert acc p) := by
  unfold dict_insert
  by_cases hany : acc.any (fun q => q.key == p.key) = true
  · rw [if_pos hany]
    rw [KeysDistinct, List.pairwise_map]
    refine h.imp ?_
    intro a b hab
    rw [dict_insert_key_eq, dict_insert_key_eq]
    exact hab
  · rw [if_neg hany]
    rw [KeysDistinct, List.pairwise_append]
    refine ⟨h, List.pairwise_singleton _ _, ?_⟩
    intro a ha b hb
    rw [List.mem_singleton] at hb
    subst hb
    intro hk
    exact hany (List.any_eq_true.mpr ⟨a, ha, by simp [hk]⟩)

/-- Every member of dict_insert acc p is p or was already in acc. -/
theorem mem_dict_insert (acc : List Item) (p q : Item)
    (hq : q ∈ dict_insert acc p) : q = p ∨ q ∈ acc := by
  unfold dict_insert at hq
  by_cases hany : acc.any (fun r => r.key == p.key) = true
  · rw [if_pos hany, List.mem_map] at hq
    obtain ⟨a, ha, rfl⟩ := hq
    by_cases h : a.key = p.key
    · left
      simp [h]
    · right
      simpa [h] using ha
  · rw [if_neg hany, List.mem_append, List.mem_singleton] at hq
    tauto

/-- dict_insert keeps every key that was already present. -/
theorem dict_insert_mem_key (acc : List Item) (p : Item) (k : String)
    (h : ∃ q ∈ acc, q.key = k) : ∃ q ∈ dict_insert acc p, q.key = k := by
  obtain ⟨q, hq, hk⟩ := h
  unfold dict_insert
  by_cases hany : acc.any (fun r => r.key == p.key) = true
  · rw [if_pos hany]
    refine ⟨if (q.key == p.key) = true then p else q,
      List.mem_map_of_mem _ hq, ?_⟩
    rw [dict_insert_key_eq]
    exact hk
  · rw [if_neg hany]
    exact ⟨q, List.mem_append_left _ hq, hk⟩

/-- dict_insert acc p makes the key of p present. -/
theorem dict_insert_adds_key (acc : List Item) (p : Item) :
    ∃ q ∈ dict_insert acc p, q.key = p.key := by
  unfold dict_insert
  by_cases hany : acc.any (fun r => r.key == p.key) = true
  · rw [if_pos hany]
    obtain ⟨a, ha, hk⟩ := List.any_eq_true.mp hany
    refine ⟨if (a.key == p.key) = true then p else a,
      List.mem_map_of_mem _ ha, ?_⟩
    rw [if_pos hk]
  · rw [if_neg hany]
    exact ⟨p, List.mem_append_right _ (List.mem_singleton_self p), rfl⟩

/-- parents_step leaves the dict unchanged on a lookup error. -/
theorem parents_step_error (bt : List String) (fetch : String → Option Item)
    (acc : List Item) (ch : Item) (u : Unit)
    (hpc : paper_for_child fetch ch = Except.error u) :
    parents_step bt fetch acc ch = acc := by
  unfold parents_step
  rw [hpc]

/-- parents_step leaves the dict unchanged when no ancestor resolves. -/
theorem parents_step_none (bt : List String) (fetch : String → Option Item)
    (acc : List Item) (ch : Item)
    (hpc : paper_for_child fetch ch = Except.ok none) :
    parents_step bt fetch acc ch = acc := by
  unfold parents_step
  rw [hpc]

/-- parents_step on a resolved ancestor inserts it when it is bibliographic. -/
theorem parents_step_some (bt : List String) (fetch : String → Option Item)
    (acc : List Item) (ch p : Item)
    (hpc : paper_for_child fetch ch = Except.ok (some p)) :
    parents_step bt fetch acc ch =
      if p.itemType ∈ bt then dict_insert acc p else acc := by
  unfold parents_step
  rw [hpc]

/-- One step of the parents loop preserves key distinctness and the
all-bibliographic invariant. -/
theorem parents_step_inv (bt : List String) (fetch : String → Option Item)
    (acc : List Item) (ch : Item)
    (h1 : KeysDistinct acc) (h2 : ∀ q ∈ acc, q.itemType ∈ bt) :
    KeysDistinct (parents_step bt fetch acc ch) ∧
      ∀ q ∈ parents_step bt fetch acc ch, q.itemType ∈ bt := by
  cases hpc : paper_for_child fetch ch with
  | error e => rw [parents_step_error bt fetch acc ch e hpc]; exact ⟨h1, h2⟩
  | ok po =>
    cases po with
    | none => rw [parents_step_none bt fetch acc ch hpc]; exact ⟨h1, h2⟩
    | some p =>
      rw [parents_step_some bt fetch acc ch p hpc]
      by_cases hb : p.itemType ∈ bt
      · rw [if_pos hb]
        refine ⟨keysDistinct_dict_insert acc p h1, ?_⟩
        intro q hq
        rcases mem_dict_insert acc p q hq with rfl | hq2
        · exact hb
        · exact h2 q hq2
      · rw [if_neg hb]
        exact ⟨h1, h2⟩

/-- One step of the parents loop keeps every key already present. -/
theorem parents_step_mono (bt : List String) (fetch : String → Option Item)
    (acc : List Item) (ch : Item) (k : String)
    (h : ∃ q ∈ acc, q.key = k) :
    ∃ q ∈ parents_step bt fetch acc ch, q.key = k := by
  cases hpc : paper_for_child fetch ch with
  | error e => rw [parents_step_error bt fetch acc ch e hpc]; exact h
  | ok po =>
    cases po with
    | none => rw [parents_step_none bt fetch acc ch hpc]; exact h
    | some p =>
      rw [parents_step_some bt fetch acc ch p hpc]
      by_cases hb : p.itemType ∈ bt
      · rw [if_pos hb]
        exact dict_insert_mem_key acc p k h
      · rw [if_neg hb]
        exact h

/-- Processing a child whose ancestor resolves to a bibliographic paper makes
the key of that paper present. -/
theorem parents_step_adds (bt : List String) (fetch : String → Option Item)
    (acc : List Item) (ch p : Item)
    (hpc : paper_for_child fetch ch = Except.ok (some p))
    (hb : p.itemType ∈ bt) :
    ∃ q ∈ parents_step bt fetch acc ch, q.key = p.key := by
  rw [parents_step_some bt fetch acc ch p hpc, if_pos hb]
  exact dict_insert_adds_key acc p

/-- A fold preserves any invariant its step preserves. -/
theorem foldl_preserve {α β : Type} (f : β → α → β) (Inv : β → Prop)
    (hstep : ∀ acc x, Inv acc → Inv (f acc x)) :
    ∀ (l : List α) (acc : β), Inv acc → Inv (l.foldl f acc)
  | [], _, h => h
  | x :: xs, acc, h =>
      foldl_preserve f Inv hstep xs (f acc x) (hstep acc x h)

/-- Claim C5: read_papers never contains two entries with the same item key,
even when two different meaningful children resolve to the same ancestor, and
every entry has a bibliographic itemType. -/
theorem C5_read_papers_dedup_biblio (lt : String) (thr : Int)
    (bt : List String) (fetch : String → Option Item) (n : Int) (wd : Nat)
    (d : Int) (changed : List Item) :
    KeysDistinct (digest lt thr bt fetch n wd d changed).read_papers ∧
      ∀ q ∈ (digest lt thr bt fetch n wd d changed).read_papers,
        q.itemType ∈ bt :=
  foldl_preserve (parents_step bt fetch)
    (fun acc => KeysDistinct acc ∧ ∀ q ∈ acc, q.itemType ∈ bt)
    (fun acc x hx => parents_step_inv bt fetch acc x hx.1 hx.2)
    (meaningful_children lt thr fetch changed) []
    ⟨List.Pairwise.nil, fun q hq => absurd hq (List.not_mem_nil q)⟩

/-- Witness for C5 at a concrete input where two distinct meaningful
annotations resolve to the same paper: read_papers still has distinct keys. -/
theorem C5_read_papers_dedup_biblio_witness :
    KeysDistinct (digest "groups" 1 ["journalArticle"] fetchW 100 1 1
      [annW90, annWLate]).read_papers :=
  (C5_read_papers_dedup_biblio "groups" 1 ["journalArticle"] fetchW 100 1 1
    [annW90, annWLate]).1

/-- Claim C6: read_papers is not time-bounded: every fetched note or
annotation that is meaningful and whose ancestor resolves to a bibliographic
paper contributes the key of that paper to read_papers, with no reference to the
activity window. -/
theorem C6_read_papers_not_time_bounded (lt : String) (thr : Int)
    (bt : List String) (fetch : String → Option Item) (n : Int) (wd : Nat)
    (d : Int) (changed : List Item) (ch p : Item)
    (hch : ch ∈ changed)
    (hty : ch.itemType = "note" ∨ ch.itemType = "annotation")
    (hm : is_meaningful_item lt thr fetch ch = true)
    (hpc : paper_for_child fetch ch = Except.ok (some p))
    (hb : p.itemType ∈ bt) :
    ∃ q ∈ (digest lt thr bt fetch n wd d changed).read_papers,
      q.key = p.key := by
  have hmem : ch ∈ meaningful_children lt thr fetch changed := by
    unfold meaningful_children notes_of annots_of
    rcases hty with h | h
    · exact List.mem_append_left _
        (List.mem_filter.mpr ⟨List.mem_filter.mpr ⟨hch, by simp [h]⟩, hm⟩)
    · exact List.mem_append_right _
        (List.mem_filter.mpr ⟨List.mem_filter.mpr ⟨hch, by simp [h]⟩, hm⟩)
  obtain ⟨l1, l2, hsplit⟩ := List.append_of_mem hmem
  show ∃ q ∈ read_papers_of lt thr bt fetch changed, q.key = p.key
  unfold read_papers_of
  rw [hsplit, List.foldl_append, List.foldl_cons]
  exact foldl_preserve (parents_step bt fetch)
    (fun acc => ∃ q ∈ acc, q.key = p.key)
    (fun acc x hx => parents_step_mono bt fetch acc x p.key hx)
    l2 _ (parents_step_adds bt fetch _ ch p hpc hb)

/-- Witness for C6: an annotation far outside the 1-day window still puts its
key of its paper into read_papers. -/
theorem C6_read_papers_not_time_bounded_witness :
    ∃ q ∈ (digest "groups" 1 ["journalArticle"] fetchW 100 1 1
      [annWLate]).read_papers, q.key = "P" :=
  C6_read_papers_not_time_bounded "groups" 1 ["journalArticle"] fetchW 100 1 1
    [annWLate] annWLate paperW (by decide) (Or.inr rfl) (by decide)
    rfl (by decide)

end ZoteroDigest
